import Mathlib

set_option maxRecDepth 8000

/-!
Shallow embedding of `src/arduino.cpp`: a two-button stopwatch/countdown
timer firmware.  The globals of the sketch become structure fields, the
button-action blocks of `loop` become pure state-transition functions,
`updateLCD`/`safePrintLine` become a pure renderer returning the writes it
issues, and the whole `loop` body becomes a step function on the full
device state.  Machine `unsigned long` arithmetic (`millis()` differences)
is modelled as an explicit modular difference `usub` over `2^32`.
-/

/-! ### Compile-time constants (lines 11-20 of the source) -/

def DEBOUNCE_MS : Nat := 50
def LONGPRESS_MS : Nat := 800
def HOLD_REPEAT_MS : Nat := 350
def TICK_MS : Nat := 1000
def LED_BLINK_MS : Nat := 500

def COUNT_STEP : Int := 10
def COUNT_MIN : Int := 10
def COUNT_MAX : Int := 300

/-! ### Timer-state-machine layer -/

/-- `enum TimerMode { IDLE, STOPWATCH, COUNTDOWN }` (line 22). -/
inductive TimerMode where
  | IDLE
  | STOPWATCH
  | COUNTDOWN
deriving DecidableEq, Repr

/-- The timer globals of the sketch (lines 23-33): mode, stopwatch counter
and flag, countdown setting/counter/flags.  `int` counters are modelled
as `Int`. -/
structure TimerState where
  currentMode : TimerMode
  stopwatchSeconds : Int
  isStopwatchRunning : Bool
  initialCountdownSetting : Int
  countdownSeconds : Int
  isCountdownRunning : Bool
  countdownFinished : Bool
deriving DecidableEq, Repr

/-- Initial values of the timer globals (lines 23-33). -/
def initTimerState : TimerState :=
  { currentMode := .IDLE
    stopwatchSeconds := 0
    isStopwatchRunning := false
    initialCountdownSetting := 10
    countdownSeconds := 0
    isCountdownRunning := false
    countdownFinished := false }

/-- The short-click-A action block (lines 140-147). -/
def shortClickA (s : TimerState) : TimerState :=
  if s.currentMode ≠ .STOPWATCH then
    { s with currentMode := .STOPWATCH
             isStopwatchRunning := true
             isCountdownRunning := false
             countdownFinished := false }
  else
    { s with isStopwatchRunning := !s.isStopwatchRunning }

/-- The short-click-B action block (lines 166-177). -/
def shortClickB (s : TimerState) : TimerState :=
  let s := { s with currentMode := TimerMode.COUNTDOWN
                    isStopwatchRunning := false
                    countdownFinished := false }
  if s.isCountdownRunning then
    { s with isCountdownRunning := false }
  else if s.countdownSeconds ≤ 0 then
    { s with countdownSeconds := s.initialCountdownSetting
             isCountdownRunning := true }
  else
    { s with isCountdownRunning := true }

/-- The hold-A full-reset action block (lines 186-192). -/
def longPressA (s : TimerState) : TimerState :=
  { s with stopwatchSeconds := 0
           countdownSeconds := 0
           isStopwatchRunning := false
           isCountdownRunning := false
           countdownFinished := false
           currentMode := .IDLE }

/-- The hold-B countdown-setting action block (lines 200-202): add
`COUNT_STEP`, wrap to `COUNT_MIN` past `COUNT_MAX`, force mode `IDLE`. -/
def holdRepeatB (s : TimerState) : TimerState :=
  let v := s.initialCountdownSetting + COUNT_STEP
  let v := if v > COUNT_MAX then COUNT_MIN else v
  { s with initialCountdownSetting := v
           currentMode := .IDLE }

/-- The one-second tick block (lines 213-228): increment a running
stopwatch; decrement a running countdown with a positive counter, and on
hitting zero stop it and set `countdownFinished`. -/
def tick (s : TimerState) : TimerState :=
  let s :=
    if s.isStopwatchRunning then
      { s with stopwatchSeconds := s.stopwatchSeconds + 1 }
    else s
  if s.isCountdownRunning then
    if s.countdownSeconds > 0 then
      let s := { s with countdownSeconds := s.countdownSeconds - 1 }
      if s.countdownSeconds = 0 then
        { s with isCountdownRunning := false
                 countdownFinished := true }
      else s
    else s
  else s

/-- The debounced logical events the loop can dispatch to the timer
state (plus the one-second tick). -/
inductive Event where
  | shortA
  | longA
  | shortB
  | holdB
  | tick
deriving DecidableEq, Repr

/-- Dispatch one logical event to the timer state. -/
def step : Event → TimerState → TimerState
  | .shortA, s => shortClickA s
  | .longA, s => longPressA s
  | .shortB, s => shortClickB s
  | .holdB, s => holdRepeatB s
  | .tick, s => tick s

/-- Run a list of events from a state. -/
def run (es : List Event) (s : TimerState) : TimerState :=
  es.foldl (fun s e => step e s) s

/-- States reachable from the initial timer state by button events and
ticks. -/
inductive Reachable : TimerState → Prop where
  | init : Reachable initTimerState
  | next : ∀ {s} (e : Event), Reachable s → Reachable (step e s)

/-- The inductive invariant of the timer state machine: the countdown
setting stays in `[COUNT_MIN, COUNT_MAX]`, the countdown counter stays in
`[0, COUNT_MAX]`, at most one running flag is set, and a set running flag
excludes the other mode being displayed. -/
def TimerInv (s : TimerState) : Prop :=
  10 ≤ s.initialCountdownSetting ∧ s.initialCountdownSetting ≤ 300 ∧
  0 ≤ s.countdownSeconds ∧ s.countdownSeconds ≤ 300 ∧
  ¬(s.isStopwatchRunning = true ∧ s.isCountdownRunning = true) ∧
  (s.isCountdownRunning = true → s.currentMode ≠ .STOPWATCH) ∧
  (s.isStopwatchRunning = true → s.currentMode ≠ .COUNTDOWN)

/-! ### Renderer layer -/

/-- Keep the first `n` characters of a string: the truncation performed by
`snprintf(buf, n+1, ...)` and by `strncpy(cache, txt, n)` followed by an
explicit terminator. -/
def trunc (n : Nat) (s : String) : String := ⟨s.data.take n⟩

/-- Zero-pad a value to two digits, as `%02d` renders it.  The sketch only
ever passes nonnegative values here. -/
def pad2 (n : Int) : String :=
  if 0 ≤ n ∧ n < 10 then "0" ++ toString n else toString n

/-- `formatTime` (lines 56-60): `sprintf(buffer, "%02d:%02d", m, s)`. -/
def formatTime (totalSeconds : Int) : String :=
  pad2 (totalSeconds / 60) ++ ":" ++ pad2 (totalSeconds % 60)

/-- A write issued to a peripheral: a text printed at column 0 of a display
row, or a level written to the LED pin. -/
inductive PWrite where
  | lcdLine (row : Nat) (txt : String)
  | led (level : Bool)
deriving DecidableEq, Repr

/-- `safePrintLine` (lines 62-72) acting on the cache of one row: when the
cached text differs from `txt`, blank the row, print `txt`, and store the
first 16 characters of `txt` in the cache (`strncpy` plus terminator). -/
def safePrintLine (row : Nat) (cache txt : String) : String × List PWrite :=
  if cache = txt then (cache, [])
  else (trunc 16 txt,
    [PWrite.lcdLine row "                ", PWrite.lcdLine row txt])

/-- The render cache (lines 51-53).  `setup` installs the out-of-range
sentinel `(TimerMode)255` as the last shown mode, modelled as `none`. -/
structure RenderState where
  lastShownMode : Option TimerMode
  lastLine0 : String
  lastLine1 : String
deriving DecidableEq, Repr

/-- `updateLCD` (lines 74-108): invalidate both line caches when the mode
changed, then repaint the lines for the current mode through
`safePrintLine`; the countdown-expired branch additionally forces the LED
pin high.  Returns the new cache, the new LED pin level, and the writes
issued. -/
def updateLCD (t : TimerState) (r : RenderState) (ledPin : Bool) :
    RenderState × Bool × List PWrite :=
  let r := if some t.currentMode ≠ r.lastShownMode then
      { lastShownMode := some t.currentMode, lastLine0 := "", lastLine1 := "" }
    else r
  match t.currentMode with
  | .STOPWATCH =>
    let p0 := safePrintLine 0 r.lastLine0 "   STOPWATCH"
    let line := trunc 16 ("     " ++ formatTime t.stopwatchSeconds)
    let p1 := safePrintLine 1 r.lastLine1 line
    ({ r with lastLine0 := p0.1, lastLine1 := p1.1 }, ledPin, p0.2 ++ p1.2)
  | .COUNTDOWN =>
    let p0 := safePrintLine 0 r.lastLine0 "   COUNTDOWN"
    if t.countdownSeconds > 0 then
      let line := trunc 16 ("     " ++ formatTime t.countdownSeconds)
      let p1 := safePrintLine 1 r.lastLine1 line
      ({ r with lastLine0 := p0.1, lastLine1 := p1.1 }, ledPin, p0.2 ++ p1.2)
    else
      let p1 := safePrintLine 1 r.lastLine1 "   TIME UP!     "
      ({ r with lastLine0 := p0.1, lastLine1 := p1.1 }, true,
        p0.2 ++ p1.2 ++ [PWrite.led true])
  | .IDLE =>
    let p0 := safePrintLine 0 r.lastLine0 "A : Stopwatch"
    let line :=
      trunc 16 ("B : CD For : " ++ toString t.initialCountdownSetting ++ "s")
    let p1 := safePrintLine 1 r.lastLine1 line
    ({ r with lastLine0 := p0.1, lastLine1 := p1.1 }, ledPin, p0.2 ++ p1.2)

/-! ### Full loop layer -/

/-- `2 ^ 32`, the modulus of `unsigned long` timestamps. -/
def W32 : Nat := 4294967296

/-- Unsigned 32-bit subtraction: the value the sketch computes for
`a - b` on `unsigned long` operands. -/
def usub (a b : Nat) : Nat := (((a : Int) - (b : Int)) % (W32 : Int)).toNat

/-- The full global state of the sketch: timer state, render cache, both
debouncer channels, tick/LED timestamps, the blink flip-flop and the LED
pin level.  `true` is HIGH; a pressed button reads LOW (`false`). -/
structure LoopState where
  timer : TimerState
  render : RenderState
  lastRawA : Bool
  lastRawB : Bool
  lastDebounceTimeA : Nat
  lastDebounceTimeB : Nat
  stableA : Bool
  stableB : Bool
  pressStartA : Nat
  pressStartB : Nat
  longAengaged : Bool
  longBengaged : Bool
  lastHoldRepeatB : Nat
  lastTick : Nat
  lastLedToggle : Nat
  ledState : Bool
  ledPin : Bool
deriving DecidableEq, Repr

/-- Lines 129-152: debounce of button A and the short-click-A action on a
stable release. -/
def debouncePhaseA (now : Nat) (rawA : Bool) (s : LoopState) :
    LoopState × List Event × List PWrite :=
  let s := if rawA ≠ s.lastRawA then { s with lastDebounceTimeA := now } else s
  let p :=
    if usub now s.lastDebounceTimeA > DEBOUNCE_MS ∧ s.stableA ≠ rawA then
      let s := { s with stableA := rawA }
      if s.stableA = false then
        (({ s with pressStartA := now, longAengaged := false } : LoopState),
          ([] : List Event), ([] : List PWrite))
      else
        let held := usub now s.pressStartA
        if s.longAengaged = false ∧ held < LONGPRESS_MS then
          let s := { s with timer := shortClickA s.timer }
          let q := updateLCD s.timer s.render s.ledPin
          ({ s with render := q.1, ledPin := q.2.1 }, [Event.shortA], q.2.2)
        else (s, [], [])
    else (s, [], [])
  ({ p.1 with lastRawA := rawA }, p.2.1, p.2.2)

/-- Lines 154-182: debounce of button B and the short-click-B action on a
stable release. -/
def debouncePhaseB (now : Nat) (rawB : Bool) (s : LoopState) :
    LoopState × List Event × List PWrite :=
  let s := if rawB ≠ s.lastRawB then { s with lastDebounceTimeB := now } else s
  let p :=
    if usub now s.lastDebounceTimeB > DEBOUNCE_MS ∧ s.stableB ≠ rawB then
      let s := { s with stableB := rawB }
      if s.stableB = false then
        (({ s with pressStartB := now, longBengaged := false,
                   lastHoldRepeatB := now } : LoopState),
          ([] : List Event), ([] : List PWrite))
      else
        let held := usub now s.pressStartB
        if s.longBengaged = false ∧ held < LONGPRESS_MS then
          let s := { s with timer := shortClickB s.timer }
          let q := updateLCD s.timer s.render s.ledPin
          ({ s with render := q.1, ledPin := q.2.1 }, [Event.shortB], q.2.2)
        else (s, [], [])
    else (s, [], [])
  ({ p.1 with lastRawB := rawB }, p.2.1, p.2.2)

/-- Lines 184-195: while A is held past the long-press threshold and not
yet engaged, fire the full reset once. -/
def holdPhaseA (now : Nat) (s : LoopState) :
    LoopState × List Event × List PWrite :=
  if s.stableA = false ∧ usub now s.pressStartA ≥ LONGPRESS_MS ∧
      s.longAengaged = false then
    let s := { s with longAengaged := true, timer := longPressA s.timer,
                      ledPin := false }
    let q := updateLCD s.timer s.render s.ledPin
    ({ s with render := q.1, ledPin := q.2.1 }, [Event.longA],
      PWrite.led false :: q.2.2)
  else (s, [], [])

/-- Lines 197-207: while B is held past the long-press threshold, bump the
countdown setting on the 350-unit cadence and mark the long press
engaged. -/
def holdPhaseB (now : Nat) (s : LoopState) :
    LoopState × List Event × List PWrite :=
  if s.stableB = false ∧ usub now s.pressStartB ≥ LONGPRESS_MS then
    let p :=
      if usub now s.lastHoldRepeatB ≥ HOLD_REPEAT_MS then
        let s := { s with timer := holdRepeatB s.timer }
        let q := updateLCD s.timer s.render s.ledPin
        (({ s with render := q.1, ledPin := q.2.1, lastHoldRepeatB := now }
            : LoopState), [Event.holdB], q.2.2)
      else (s, ([] : List Event), ([] : List PWrite))
    ({ p.1 with longBengaged := true }, p.2.1, p.2.2)
  else (s, [], [])

/-- The body of the tick block once the one-second cadence has fired
(lines 211-228, `lastTick` already updated): advance the counters, with
the interleaved `updateLCD` calls.  It never reads a timestamp. -/
def tickBody (s : LoopState) : LoopState × List PWrite :=
  let p1 :=
    if s.timer.isStopwatchRunning then
      let s := { s with timer :=
        { s.timer with stopwatchSeconds := s.timer.stopwatchSeconds + 1 } }
      if s.timer.currentMode = .STOPWATCH then
        let q := updateLCD s.timer s.render s.ledPin
        (({ s with render := q.1, ledPin := q.2.1 } : LoopState), q.2.2)
      else (s, [])
    else (s, ([] : List PWrite))
  let s := p1.1
  let p2 :=
    if s.timer.isCountdownRunning then
      if s.timer.countdownSeconds > 0 then
        let s := { s with timer :=
          { s.timer with countdownSeconds := s.timer.countdownSeconds - 1 } }
        let pa :=
          if s.timer.currentMode = .COUNTDOWN then
            let q := updateLCD s.timer s.render s.ledPin
            (({ s with render := q.1, ledPin := q.2.1 } : LoopState), q.2.2)
          else (s, ([] : List PWrite))
        let s := pa.1
        if s.timer.countdownSeconds = 0 then
          let s := { s with timer :=
            { s.timer with isCountdownRunning := false,
                           countdownFinished := true } }
          let q := updateLCD s.timer s.render s.ledPin
          (({ s with render := q.1, ledPin := q.2.1 } : LoopState),
            pa.2 ++ q.2.2)
        else (s, pa.2)
      else (s, [])
    else (s, ([] : List PWrite))
  (p2.1, p1.2 ++ p2.2)

/-- Lines 209-229: the one-second tick block. -/
def tickPhase (now : Nat) (s : LoopState) : LoopState × List PWrite :=
  if usub now s.lastTick ≥ TICK_MS then tickBody { s with lastTick := now }
  else (s, [])

/-- Lines 231-248: the LED cadence block: blink every 500 units while a
timer runs, every 700 units when finished, otherwise force the LED off. -/
def ledPhase (now : Nat) (s : LoopState) : LoopState × List PWrite :=
  if s.timer.isStopwatchRunning || s.timer.isCountdownRunning then
    if usub now s.lastLedToggle ≥ LED_BLINK_MS then
      let s := { s with lastLedToggle := now, ledState := !s.ledState }
      ({ s with ledPin := s.ledState }, [PWrite.led s.ledState])
    else (s, [])
  else if s.timer.countdownFinished then
    if usub now s.lastLedToggle ≥ 700 then
      let s := { s with lastLedToggle := now, ledState := !s.ledState }
      ({ s with ledPin := s.ledState }, [PWrite.led s.ledState])
    else (s, [])
  else
    ({ s with ledPin := false, ledState := false }, [PWrite.led false])

/-- Line 250: the unconditional render at the end of every iteration. -/
def finalRender (s : LoopState) : LoopState × List PWrite :=
  let q := updateLCD s.timer s.render s.ledPin
  ({ s with render := q.1, ledPin := q.2.1 }, q.2.2)

/-- One iteration of `loop` (lines 124-251), given the current time and
the two raw pin levels.  Returns the new state, the button events whose
action blocks fired, and the peripheral writes in issue order. -/
def loopStep (now : Nat) (rawA rawB : Bool) (s : LoopState) :
    LoopState × List Event × List PWrite :=
  let a := debouncePhaseA now rawA s
  let b := debouncePhaseB now rawB a.1
  let ha := holdPhaseA now b.1
  let hb := holdPhaseB now ha.1
  let t := tickPhase now hb.1
  let l := ledPhase now t.1
  let f := finalRender l.1
  (f.1, a.2.1 ++ b.2.1 ++ ha.2.1 ++ hb.2.1,
    a.2.2 ++ b.2.2 ++ ha.2.2 ++ hb.2.2 ++ t.2 ++ l.2 ++ f.2)

/-- Device state right after `setup` (lines 111-121): globals at their
initial values (lines 23-53) and one render performed against the
invalidated cache. -/
def initLoopState : LoopState :=
  { timer := initTimerState
    render := (updateLCD initTimerState
      { lastShownMode := none, lastLine0 := "", lastLine1 := "" } false).1
    lastRawA := true, lastRawB := true
    lastDebounceTimeA := 0, lastDebounceTimeB := 0
    stableA := true, stableB := true
    pressStartA := 0, pressStartB := 0
    longAengaged := false, longBengaged := false
    lastHoldRepeatB := 0
    lastTick := 0
    lastLedToggle := 0
    ledState := false
    ledPin := false }

/-- Run successive loop iterations on `(now, rawA, rawB)` samples,
collecting the emitted button events. -/
def runTrace (xs : List (Nat × Bool × Bool)) (s : LoopState) :
    LoopState × List Event :=
  xs.foldl (fun p x =>
    let q := loopStep x.1 x.2.1 x.2.2 p.1
    (q.1, p.2 ++ q.2.1)) (s, [])

/-! ### Definitions supporting the claim statements -/

/-- The display line texts `updateLCD` computes for a timer state (its
three branches, lines 83-107). -/
def line0Text (t : TimerState) : String :=
  match t.currentMode with
  | .STOPWATCH => "   STOPWATCH"
  | .COUNTDOWN => "   COUNTDOWN"
  | .IDLE => "A : Stopwatch"

/-- The second display line `updateLCD` computes for a timer state. -/
def line1Text (t : TimerState) : String :=
  match t.currentMode with
  | .STOPWATCH => trunc 16 ("     " ++ formatTime t.stopwatchSeconds)
  | .COUNTDOWN =>
    if t.countdownSeconds > 0 then
      trunc 16 ("     " ++ formatTime t.countdownSeconds)
    else "   TIME UP!     "
  | .IDLE =>
    trunc 16 ("B : CD For : " ++ toString t.initialCountdownSetting ++ "s")

/-- The display writes within a write list. -/
def lcdWrites (ws : List PWrite) : List PWrite :=
  ws.filter fun w => match w with
    | .lcdLine _ _ => true
    | .led _ => false

/-- The text of the last display write to a given row, if any. -/
def lastLineWrite (ws : List PWrite) (row : Nat) : Option String :=
  ws.foldl (fun acc w => match w with
    | .lcdLine r txt => if r = row then some txt else acc
    | .led _ => acc) none

/-- The line cache selected for a row (`row == 0 ? lastLine0 : lastLine1`,
line 63). -/
def cacheFor (row : Nat) (r : RenderState) : String :=
  if row = 0 then r.lastLine0 else r.lastLine1

/-- Add a uniform offset to a timestamp, modulo `2 ^ 32`. -/
def shiftTs (c t : Nat) : Nat := (t + c) % W32

/-- Add a uniform offset to every recorded timestamp of the device
state. -/
def shiftState (c : Nat) (s : LoopState) : LoopState :=
  { s with lastDebounceTimeA := shiftTs c s.lastDebounceTimeA
           lastDebounceTimeB := shiftTs c s.lastDebounceTimeB
           pressStartA := shiftTs c s.pressStartA
           pressStartB := shiftTs c s.pressStartB
           lastHoldRepeatB := shiftTs c s.lastHoldRepeatB
           lastTick := shiftTs c s.lastTick
           lastLedToggle := shiftTs c s.lastLedToggle }

/-- Event trace for C1: raise the setting to 300, load and pause a
300-second countdown, then wrap the setting down to 10. -/
def c1BadTrace : List Event :=
  List.replicate 29 Event.holdB ++ [Event.shortB, Event.shortB, Event.holdB]

/-- Loop samples for C4 (`(now, rawA, rawB)`, `false` = pressed): button A
pressed at 100, stable at 200 (press start), raw release at 900, stable
release at 1000 — held for exactly `LONGPRESS_MS` = 800 at the moment of
stable release. -/
def c4Trace : List (Nat × Bool × Bool) :=
  [(100, false, true), (200, false, true), (900, true, true),
   (1000, true, true)]

/-- The device state just before the stable release of the C4 trace. -/
def c4ReleaseState : LoopState := (runTrace (c4Trace.take 3) initLoopState).1

/-- The mirror-image C4 samples for button B: B pressed at 100, stable at
200, raw release at 900, stable release at 1000 — held for exactly
`LONGPRESS_MS` = 800 at the moment of stable release. -/
def c4TraceB : List (Nat × Bool × Bool) :=
  [(100, true, false), (200, true, false), (900, true, true),
   (1000, true, true)]

/-- The device state just before the stable release of the B-side C4
trace. -/
def c4ReleaseStateB : LoopState :=
  (runTrace (c4TraceB.take 3) initLoopState).1

/-- Loop samples for C3: a short press of B starts a 10-second countdown,
which then ticks down to zero and expires. -/
def c3Trace : List (Nat × Bool × Bool) :=
  [(100, true, false), (200, true, false), (300, true, true),
   (400, true, true), (1000, true, true), (2000, true, true),
   (3000, true, true), (4000, true, true), (5000, true, true),
   (6000, true, true), (7000, true, true), (8000, true, true),
   (9000, true, true), (10000, true, true)]

/-- The device state reached by the C3 trace: countdown expired
(`COUNTDOWN` mode, remaining 0, not running, finished set). -/
def c3ExpiredState : LoopState := (runTrace c3Trace initLoopState).1

/-- A countdown-expired timer state used against the render-idempotence
claim. -/
def c5ExpiredTimer : TimerState :=
  { currentMode := .COUNTDOWN
    stopwatchSeconds := 0
    isStopwatchRunning := false
    initialCountdownSetting := 10
    countdownSeconds := 0
    isCountdownRunning := false
    countdownFinished := true }

/-- An empty render cache with the invalidation sentinel installed. -/
def emptyRender : RenderState :=
  { lastShownMode := none, lastLine0 := "", lastLine1 := "" }

/-- A device state with the countdown finished while `IDLE` is displayed
(reachable by holding B while a countdown runs out), used to witness the
700-unit blink behaviour. -/
def c3BlinkState : LoopState :=
  { timer := { currentMode := .IDLE
               stopwatchSeconds := 0
               isStopwatchRunning := false
               initialCountdownSetting := 10
               countdownSeconds := 0
               isCountdownRunning := false
               countdownFinished := true }
    render := emptyRender
    lastRawA := true, lastRawB := true
    lastDebounceTimeA := 0, lastDebounceTimeB := 0
    stableA := true, stableB := true
    pressStartA := 0, pressStartB := 0
    longAengaged := false, longBengaged := false
    lastHoldRepeatB := 0
    lastTick := 0
    lastLedToggle := 0
    ledState := false
    ledPin := false }

/-! ### Timer state machine: invariants -/

theorem timerInv_init : TimerInv initTimerState := by
  simp only [TimerInv, initTimerState]
  refine ⟨by decide, by decide, by decide, by decide, by simp, by simp, by simp⟩

theorem timerInv_step (e : Event) (s : TimerState) (h : TimerInv s) :
    TimerInv (step e s) := by
  obtain ⟨mode, sw, swR, setting, cd, cdR, fin⟩ := s
  obtain ⟨h1, h2, h3, h4, h5, h6, h7⟩ := h
  simp only [TimerInv] at *
  cases e <;> cases mode <;> cases swR <;> cases cdR <;>
    simp_all [step, shortClickA, shortClickB, longPressA, holdRepeatB, tick,
      COUNT_STEP, COUNT_MIN, COUNT_MAX] <;>
    split_ifs <;> simp_all <;> omega

theorem timerInv_of_reachable {s : TimerState} (h : Reachable s) :
    TimerInv s := by
  induction h with
  | init => exact timerInv_init
  | next e _ ih => exact timerInv_step e _ ih

theorem reachable_run (es : List Event) {s : TimerState} (h : Reachable s) :
    Reachable (run es s) := by
  induction es generalizing s with
  | nil => exact h
  | cons e es ih => exact ih (Reachable.next e h)

/-! ### Renderer helper lemmas -/

theorem trunc_length (n : Nat) (s : String) : (trunc n s).data.length ≤ n := by
  show (s.data.take n).length ≤ n
  rw [List.length_take]
  exact min_le_left _ _

theorem trunc_eq_of_le {n : Nat} {s : String} (h : s.data.length ≤ n) :
    trunc n s = s := by
  cases s with
  | mk data =>
    show String.mk (data.take n) = String.mk data
    exact congrArg String.mk (List.take_of_length_le h)

theorem line0Text_length (t : TimerState) : (line0Text t).data.length ≤ 16 := by
  unfold line0Text
  cases t.currentMode <;> decide

theorem line1Text_length (t : TimerState) : (line1Text t).data.length ≤ 16 := by
  obtain ⟨mode, sw, swR, setting, cd, cdR, fin⟩ := t
  cases mode <;> simp only [line1Text]
  · exact trunc_length 16 _
  · exact trunc_length 16 _
  · split
    · exact trunc_length 16 _
    · decide

theorem safePrintLine_cache (row : Nat) (c txt : String)
    (h : txt.data.length ≤ 16) : (safePrintLine row c txt).1 = txt := by
  unfold safePrintLine
  split
  · assumption
  · exact trunc_eq_of_le h

theorem safePrintLine_self (row : Nat) (txt : String) :
    safePrintLine row txt txt = (txt, []) := by
  simp [safePrintLine]

theorem updateLCD_cache (t : TimerState) (r : RenderState) (led : Bool) :
    (updateLCD t r led).1.lastShownMode = some t.currentMode ∧
    (updateLCD t r led).1.lastLine0 = line0Text t ∧
    (updateLCD t r led).1.lastLine1 = line1Text t := by
  obtain ⟨mode, sw, swR, setting, cd, cdR, fin⟩ := t
  obtain ⟨m0, l0, l1⟩ := r
  cases mode <;>
    simp only [updateLCD, line0Text, line1Text] <;>
    split_ifs <;>
    simp_all <;>
    first
      | rfl
      | exact safePrintLine_cache _ _ _ (by decide)
      | exact safePrintLine_cache _ _ _ (trunc_length 16 _)
      | (refine ⟨?_, ?_⟩ <;>
          first
            | exact safePrintLine_cache _ _ _ (by decide)
            | exact safePrintLine_cache _ _ _ (trunc_length 16 _)
            | simp_all)
      | (refine ⟨?_, ?_, ?_⟩ <;>
          first
            | exact safePrintLine_cache _ _ _ (by decide)
            | exact safePrintLine_cache _ _ _ (trunc_length 16 _)
            | simp_all)

theorem updateLCD_ledPin (t : TimerState) (r : RenderState) (led : Bool)
    (h : t.currentMode ≠ .COUNTDOWN ∨ 0 < t.countdownSeconds) :
    (updateLCD t r led).2.1 = led := by
  obtain ⟨mode, sw, swR, setting, cd, cdR, fin⟩ := t
  cases mode <;> simp_all [updateLCD] <;> split_ifs <;> simp_all <;> omega

theorem safePrintLine_writes (row : Nat) (c txt : String) :
    (safePrintLine row c txt).2 = [] ∨
    (safePrintLine row c txt).2 =
      [PWrite.lcdLine row "                ", PWrite.lcdLine row txt] := by
  unfold safePrintLine
  split <;> simp

theorem updateLCD_stable (t : TimerState) (r : RenderState) (led : Bool)
    (h0 : r.lastShownMode = some t.currentMode)
    (h1 : r.lastLine0 = line0Text t) (h2 : r.lastLine1 = line1Text t) :
    (updateLCD t r led).2.2 =
      if t.currentMode = .COUNTDOWN ∧ t.countdownSeconds ≤ 0
      then [PWrite.led true] else [] := by
  obtain ⟨mode, sw, swR, setting, cd, cdR, fin⟩ := t
  obtain ⟨m0, l0, l1⟩ := r
  simp only at h0 h1 h2
  subst h0 h1 h2
  cases mode <;>
    simp only [updateLCD, line0Text, line1Text] <;>
    split_ifs <;>
    simp_all [safePrintLine_self] <;>
    omega

theorem updateLCD_writes (t : TimerState) (r : RenderState) (led : Bool) :
    ∃ c0 c1,
      (updateLCD t r led).2.2 =
        (safePrintLine 0 c0 (line0Text t)).2 ++
        (safePrintLine 1 c1 (line1Text t)).2 ++
        (if t.currentMode = .COUNTDOWN ∧ t.countdownSeconds ≤ 0
         then [PWrite.led true] else []) := by
  obtain ⟨mode, sw, swR, setting, cd, cdR, fin⟩ := t
  obtain ⟨m0, l0, l1⟩ := r
  cases mode
  · refine ⟨if some TimerMode.IDLE ≠ m0 then "" else l0,
            if some TimerMode.IDLE ≠ m0 then "" else l1, ?_⟩
    simp only [updateLCD, line0Text, line1Text]
    split_ifs <;> simp_all
  · refine ⟨if some TimerMode.STOPWATCH ≠ m0 then "" else l0,
            if some TimerMode.STOPWATCH ≠ m0 then "" else l1, ?_⟩
    simp only [updateLCD, line0Text, line1Text]
    split_ifs <;> simp_all
  · refine ⟨if some TimerMode.COUNTDOWN ≠ m0 then "" else l0,
            if some TimerMode.COUNTDOWN ≠ m0 then "" else l1, ?_⟩
    simp only [updateLCD, line0Text, line1Text]
    split_ifs <;> simp_all <;> omega

/-! ### C5: render idempotence -/

/-- C5 counterexample: in the countdown-expired state the second of two
renderer invocations with unchanged state still issues a peripheral write
(the unconditional LED-high write of the expired branch, line 99), so the
claimed zero-write idempotence is false. -/
theorem c5_counterexample :
    (updateLCD c5ExpiredTimer
        (updateLCD c5ExpiredTimer emptyRender false).1
        (updateLCD c5ExpiredTimer emptyRender false).2.1).2.2 ≠ [] ∧
    (updateLCD c5ExpiredTimer
        (updateLCD c5ExpiredTimer emptyRender false).1
        (updateLCD c5ExpiredTimer emptyRender false).2.1).2.2
      = [PWrite.led true] := by
  refine ⟨?_, ?_⟩ <;> decide

/-- C5 (amended): invoking the renderer twice in succession with the state
unchanged produces zero display writes on the second invocation, and zero
writes altogether unless the state is countdown-expired (mode =
`COUNTDOWN` with remaining ≤ 0), in which case the second invocation
issues exactly the one forced LED-high write. -/
theorem c5_second_render (t : TimerState) (r : RenderState) (led : Bool) :
    (updateLCD t (updateLCD t r led).1 (updateLCD t r led).2.1).2.2 =
      (if t.currentMode = .COUNTDOWN ∧ t.countdownSeconds ≤ 0
       then [PWrite.led true] else []) ∧
    lcdWrites
        (updateLCD t (updateLCD t r led).1 (updateLCD t r led).2.1).2.2
      = [] := by
  obtain ⟨e0, e1, e2⟩ := updateLCD_cache t r led
  have h := updateLCD_stable t (updateLCD t r led).1 (updateLCD t r led).2.1
    e0 e1 e2
  refine ⟨h, ?_⟩
  rw [h]
  split_ifs <;> simp [lcdWrites]

/-! ### C10: display writes fit the row and the caches -/

/-- C10: every text the renderer hands to a display line write is at most
16 characters (so it fits the 16-column row and the 17-byte cache), and
the cache of a row that was written ends up equal to the text last written
to it. -/
theorem lastLineWrite_foldl (ws : List PWrite) (row : Nat)
    (acc : Option String) :
    List.foldl (fun a w => match w with
      | PWrite.lcdLine r txt => if r = row then some txt else a
      | PWrite.led _ => a) acc ws =
    (lastLineWrite ws row).elim acc some := by
  induction ws generalizing acc with
  | nil => rfl
  | cons w ws ih =>
    cases w with
    | led b =>
      have h2 : lastLineWrite (PWrite.led b :: ws) row =
          lastLineWrite ws row := rfl
      rw [h2]
      simp only [List.foldl_cons]
      exact ih acc
    | lcdLine r txt =>
      have h2 : lastLineWrite (PWrite.lcdLine r txt :: ws) row =
          (lastLineWrite ws row).elim
            (if r = row then some txt else none) some := by
        show List.foldl _ (if r = row then some txt else none) ws = _
        exact ih _
      rw [h2]
      simp only [List.foldl_cons]
      rw [ih]
      cases lastLineWrite ws row <;> split_ifs <;> rfl

theorem lastLineWrite_append (A B : List PWrite) (row : Nat) :
    lastLineWrite (A ++ B) row =
      (lastLineWrite B row).elim (lastLineWrite A row) some := by
  show List.foldl _ _ (A ++ B) = _
  rw [List.foldl_append]
  exact lastLineWrite_foldl B row _

theorem lastLineWrite_nil (row : Nat) : lastLineWrite [] row = none := rfl

theorem lastLineWrite_pair (row r : Nat) (t1 t2 : String) :
    lastLineWrite [PWrite.lcdLine r t1, PWrite.lcdLine r t2] row =
      if r = row then some t2 else none := by
  simp only [lastLineWrite, List.foldl_cons, List.foldl_nil]
  split_ifs <;> rfl

theorem c10_display_writes (t : TimerState) (r : RenderState) (led : Bool) :
    (∀ row txt, PWrite.lcdLine row txt ∈ (updateLCD t r led).2.2 →
       txt.data.length ≤ 16) ∧
    (∀ row txt, lastLineWrite (updateLCD t r led).2.2 row = some txt →
       cacheFor row (updateLCD t r led).1 = txt) := by
  obtain ⟨e0, e1, e2⟩ := updateLCD_cache t r led
  obtain ⟨c0, c1, hw⟩ := updateLCD_writes t r led
  constructor
  · intro row txt hm
    rw [hw] at hm
    rcases safePrintLine_writes 0 c0 (line0Text t) with h0 | h0 <;>
      rcases safePrintLine_writes 1 c1 (line1Text t) with h1 | h1 <;>
      rw [h0, h1] at hm <;>
      split_ifs at hm <;>
      simp only [List.append_nil, List.nil_append, List.mem_append,
        List.mem_cons, List.not_mem_nil, or_false, false_or,
        PWrite.lcdLine.injEq, reduceCtorEq] at hm <;>
      (have hcand : txt = "                " ∨ txt = line0Text t ∨
          txt = line1Text t := by tauto) <;>
      rcases hcand with rfl | rfl | rfl <;>
      (first
        | decide
        | exact line0Text_length t
        | exact line1Text_length t)
  · intro row txt hlw
    rw [hw] at hlw
    rw [lastLineWrite_append, lastLineWrite_append] at hlw
    have hld : lastLineWrite
        (if t.currentMode = .COUNTDOWN ∧ t.countdownSeconds ≤ 0
         then [PWrite.led true] else []) row = none := by
      split_ifs <;> rfl
    rw [hld] at hlw
    simp only [Option.elim] at hlw
    rcases safePrintLine_writes 0 c0 (line0Text t) with h0 | h0 <;>
      rcases safePrintLine_writes 1 c1 (line1Text t) with h1 | h1 <;>
      rw [h0, h1] at hlw <;>
      simp only [lastLineWrite_pair, lastLineWrite_nil] at hlw <;>
      (try split_ifs at hlw) <;>
      simp only [Option.elim, Option.some.injEq, reduceCtorEq] at hlw <;>
      (try subst_vars) <;>
      simp_all [cacheFor]

/-! ### C1: countdown counter bounds -/

/-- C1 counterexample: the claimed invariant `remaining ≤ configured
duration` fails on a reachable state.  Raising the setting to 300, loading
and pausing a 300-second countdown, then wrapping the setting to 10 by one
more hold-B firing leaves `countdownSeconds = 300` above
`initialCountdownSetting = 10`. -/
theorem c1_counterexample :
    Reachable (run c1BadTrace initTimerState) ∧
    (run c1BadTrace initTimerState).countdownSeconds = 300 ∧
    (run c1BadTrace initTimerState).initialCountdownSetting = 10 ∧
    ¬((run c1BadTrace initTimerState).countdownSeconds ≤
      (run c1BadTrace initTimerState).initialCountdownSetting) :=
  ⟨reachable_run c1BadTrace Reachable.init, by decide, by decide, by decide⟩

/-- C1 (amended): in every state reachable from the initial state by
button events and ticks the countdown remaining counter stays in
`[0, COUNT_MAX]` and the configured duration stays in
`[COUNT_MIN, COUNT_MAX]`; the remaining counter can however exceed a
configured duration that was wrapped down after the countdown was
loaded. -/
theorem c1_remaining_bounds {s : TimerState} (h : Reachable s) :
    0 ≤ s.countdownSeconds ∧ s.countdownSeconds ≤ 300 ∧
    10 ≤ s.initialCountdownSetting ∧ s.initialCountdownSetting ≤ 300 := by
  obtain ⟨h1, h2, h3, h4, _, _, _⟩ := timerInv_of_reachable h
  exact ⟨h3, h4, h1, h2⟩

theorem c1_remaining_bounds_witness :
    0 ≤ initTimerState.countdownSeconds ∧
    initTimerState.countdownSeconds ≤ 300 ∧
    10 ≤ initTimerState.initialCountdownSetting ∧
    initTimerState.initialCountdownSetting ≤ 300 :=
  c1_remaining_bounds Reachable.init

/-! ### C2: running flag versus selected mode -/

/-- C2 counterexample: a hold-B firing forces `currentMode = IDLE` without
touching the countdown running flag, so a reachable state has the
countdown running while `IDLE` is displayed, contradicting the claim that
a set running flag implies its mode is selected. -/
theorem c2_counterexample :
    Reachable (run [Event.shortB, Event.holdB] initTimerState) ∧
    (run [Event.shortB, Event.holdB] initTimerState).isCountdownRunning
      = true ∧
    (run [Event.shortB, Event.holdB] initTimerState).currentMode
      = TimerMode.IDLE :=
  ⟨reachable_run [Event.shortB, Event.holdB] Reachable.init,
    by decide, by decide⟩

/-- C2 (amended): in every reachable state a set running flag implies the
displayed mode is that timer's own mode or `IDLE` (never the other
timer's mode), and the two running flags are never both set; the hold-B
configuration events can leave a running timer displayed as `IDLE`. -/
theorem c2_running_mode {s : TimerState} (h : Reachable s) :
    (s.isCountdownRunning = true →
      s.currentMode = TimerMode.COUNTDOWN ∨
      s.currentMode = TimerMode.IDLE) ∧
    (s.isStopwatchRunning = true →
      s.currentMode = TimerMode.STOPWATCH ∨
      s.currentMode = TimerMode.IDLE) ∧
    ¬(s.isStopwatchRunning = true ∧ s.isCountdownRunning = true) := by
  obtain ⟨_, _, _, _, h5, h6, h7⟩ := timerInv_of_reachable h
  refine ⟨?_, ?_, h5⟩
  · intro hc
    have := h6 hc
    cases hm : s.currentMode <;> simp_all
  · intro hc
    have := h7 hc
    cases hm : s.currentMode <;> simp_all

theorem c2_running_mode_witness :
    (initTimerState.isCountdownRunning = true →
      initTimerState.currentMode = TimerMode.COUNTDOWN ∨
      initTimerState.currentMode = TimerMode.IDLE) ∧
    (initTimerState.isStopwatchRunning = true →
      initTimerState.currentMode = TimerMode.STOPWATCH ∨
      initTimerState.currentMode = TimerMode.IDLE) ∧
    ¬(initTimerState.isStopwatchRunning = true ∧
      initTimerState.isCountdownRunning = true) :=
  c2_running_mode Reachable.init

/-! ### C6: mode exclusivity -/

/-- C6: after any single event dispatched in any reachable state, at most
one of the stopwatch and countdown running flags is set. -/
theorem c6_mode_exclusivity {s : TimerState} (h : Reachable s) (e : Event) :
    ¬((step e s).isStopwatchRunning = true ∧
      (step e s).isCountdownRunning = true) :=
  (timerInv_of_reachable (Reachable.next e h)).2.2.2.2.1

theorem c6_mode_exclusivity_witness :
    ¬((step Event.shortA initTimerState).isStopwatchRunning = true ∧
      (step Event.shortA initTimerState).isCountdownRunning = true) :=
  c6_mode_exclusivity Reachable.init Event.shortA

/-! ### C7: countdown setting clamp -/

/-- C7: from any configured duration in `[10, 300]`, a hold-B firing adds
exactly `COUNT_STEP` = 10, except that a result beyond `COUNT_MAX` = 300
becomes exactly `COUNT_MIN` = 10; consequently any number of firings keeps
the configured duration inside `[10, 300]`. -/
theorem c7_countdown_clamp (s : TimerState)
    (h1 : 10 ≤ s.initialCountdownSetting)
    (h2 : s.initialCountdownSetting ≤ 300) :
    ((s.initialCountdownSetting + 10 ≤ 300 →
        (holdRepeatB s).initialCountdownSetting =
          s.initialCountdownSetting + 10) ∧
     (300 < s.initialCountdownSetting + 10 →
        (holdRepeatB s).initialCountdownSetting = 10)) ∧
    ∀ n : Nat, 10 ≤ (holdRepeatB^[n] s).initialCountdownSetting ∧
      (holdRepeatB^[n] s).initialCountdownSetting ≤ 300 := by
  constructor
  · constructor <;> intro h <;>
      simp [holdRepeatB, COUNT_STEP, COUNT_MAX, COUNT_MIN] <;>
      omega
  · intro n
    induction n with
    | zero => exact ⟨h1, h2⟩
    | succ n ih =>
      rw [Function.iterate_succ_apply']
      simp only [holdRepeatB, COUNT_STEP, COUNT_MAX, COUNT_MIN]
      split_ifs <;> simp <;> omega

theorem c7_countdown_clamp_witness :
    (10 ≤ initTimerState.initialCountdownSetting ∧
     initTimerState.initialCountdownSetting ≤ 300) ∧
    (holdRepeatB initTimerState).initialCountdownSetting = 20 ∧
    10 ≤ (holdRepeatB^[30] initTimerState).initialCountdownSetting ∧
    (holdRepeatB^[30] initTimerState).initialCountdownSetting ≤ 300 :=
  ⟨⟨by decide, by decide⟩,
   by
    have h := ((c7_countdown_clamp initTimerState (by decide)
      (by decide)).1.1 (by decide))
    rw [h]; decide,
   (c7_countdown_clamp initTimerState (by decide) (by decide)).2 30⟩

/-! ### C8: tick semantics -/

/-- C8: on a one-second tick, a running stopwatch gains exactly one
second; a running countdown with a positive counter loses exactly one
second and, exactly when it thereby reaches zero, stops and sets the
finished flag; a timer whose running flag is clear is untouched. -/
theorem c8_tick_semantics (s : TimerState) :
    (s.isStopwatchRunning = true →
       (tick s).stopwatchSeconds = s.stopwatchSeconds + 1) ∧
    (s.isStopwatchRunning = false →
       (tick s).stopwatchSeconds = s.stopwatchSeconds ∧
       (tick s).isStopwatchRunning = false) ∧
    (s.isCountdownRunning = true → 0 < s.countdownSeconds →
       (tick s).countdownSeconds = s.countdownSeconds - 1 ∧
       (s.countdownSeconds - 1 = 0 →
          (tick s).isCountdownRunning = false ∧
          (tick s).countdownFinished = true) ∧
       (s.countdownSeconds - 1 ≠ 0 →
          (tick s).isCountdownRunning = true ∧
          (tick s).countdownFinished = s.countdownFinished)) ∧
    (s.isCountdownRunning = false →
       (tick s).countdownSeconds = s.countdownSeconds ∧
       (tick s).isCountdownRunning = false ∧
       (tick s).countdownFinished = s.countdownFinished) := by
  obtain ⟨mode, sw, swR, setting, cd, cdR, fin⟩ := s
  cases swR <;> cases cdR <;>
    simp [tick] <;> split_ifs <;> simp_all <;> omega

theorem c8_tick_semantics_witness :
    (tick { currentMode := TimerMode.COUNTDOWN, stopwatchSeconds := 0,
            isStopwatchRunning := false, initialCountdownSetting := 10,
            countdownSeconds := 1, isCountdownRunning := true,
            countdownFinished := false }).countdownSeconds = 0 ∧
    (tick { currentMode := TimerMode.COUNTDOWN, stopwatchSeconds := 0,
            isStopwatchRunning := false, initialCountdownSetting := 10,
            countdownSeconds := 1, isCountdownRunning := true,
            countdownFinished := false }).isCountdownRunning = false ∧
    (tick { currentMode := TimerMode.COUNTDOWN, stopwatchSeconds := 0,
            isStopwatchRunning := false, initialCountdownSetting := 10,
            countdownSeconds := 1, isCountdownRunning := true,
            countdownFinished := false }).countdownFinished = true := by
  have h := (c8_tick_semantics
    { currentMode := TimerMode.COUNTDOWN, stopwatchSeconds := 0,
      isStopwatchRunning := false, initialCountdownSetting := 10,
      countdownSeconds := 1, isCountdownRunning := true,
      countdownFinished := false }).2.2.1 rfl (by decide)
  obtain ⟨ha, hb, _⟩ := h
  have hz := hb (by decide)
  refine ⟨?_, hz.1, hz.2⟩
  rw [ha]
  decide

/-! ### Loop phase helper lemmas -/

theorem debouncePhaseA_idle (now : Nat) (s : LoopState)
    (h1 : s.lastRawA = true) (h2 : s.stableA = true) :
    debouncePhaseA now true s = (s, [], []) := by
  obtain ⟨tm, rd, lra, lrb, ldta, ldtb, sa, sb, psa, psb, la, lb, lhr, lt,
    llt, ls, lp⟩ := s
  simp only at h1 h2
  subst h1; subst h2
  simp [debouncePhaseA]

theorem debouncePhaseB_idle (now : Nat) (s : LoopState)
    (h1 : s.lastRawB = true) (h2 : s.stableB = true) :
    debouncePhaseB now true s = (s, [], []) := by
  obtain ⟨tm, rd, lra, lrb, ldta, ldtb, sa, sb, psa, psb, la, lb, lhr, lt,
    llt, ls, lp⟩ := s
  simp only at h1 h2
  subst h1; subst h2
  simp [debouncePhaseB]

theorem holdPhaseA_skip (now : Nat) (s : LoopState)
    (h : s.stableA = true) :
    holdPhaseA now s = (s, [], []) := by
  simp [holdPhaseA, h]

theorem holdPhaseB_skip (now : Nat) (s : LoopState)
    (h : s.stableB = true) :
    holdPhaseB now s = (s, [], []) := by
  simp [holdPhaseB, h]

theorem tickBody_stableA (s : LoopState) :
    (tickBody s).1.stableA = s.stableA := by
  simp only [tickBody]
  split_ifs <;> rfl

theorem tickPhase_stableA (now : Nat) (s : LoopState) :
    (tickPhase now s).1.stableA = s.stableA := by
  simp only [tickPhase]
  split_ifs
  · rw [tickBody_stableA]
  · rfl

theorem ledPhase_stableA (now : Nat) (s : LoopState) :
    (ledPhase now s).1.stableA = s.stableA := by
  simp only [ledPhase]
  split_ifs <;> rfl

theorem finalRender_stableA (s : LoopState) :
    (finalRender s).1.stableA = s.stableA := rfl

theorem tickBody_stableB (s : LoopState) :
    (tickBody s).1.stableB = s.stableB := by
  simp only [tickBody]
  split_ifs <;> rfl

theorem tickPhase_stableB (now : Nat) (s : LoopState) :
    (tickPhase now s).1.stableB = s.stableB := by
  simp only [tickPhase]
  split_ifs
  · rw [tickBody_stableB]
  · rfl

theorem ledPhase_stableB (now : Nat) (s : LoopState) :
    (ledPhase now s).1.stableB = s.stableB := by
  simp only [ledPhase]
  split_ifs <;> rfl

theorem finalRender_stableB (s : LoopState) :
    (finalRender s).1.stableB = s.stableB := rfl

theorem tickBody_idle (s : LoopState)
    (h1 : s.timer.isStopwatchRunning = false)
    (h2 : s.timer.isCountdownRunning = false) :
    tickBody s = (s, []) := by
  simp [tickBody, h1, h2]

theorem tickPhase_idle (now : Nat) (s : LoopState)
    (h1 : s.timer.isStopwatchRunning = false)
    (h2 : s.timer.isCountdownRunning = false) :
    (tickPhase now s).1 =
      (if usub now s.lastTick ≥ TICK_MS
       then { s with lastTick := now } else s) := by
  unfold tickPhase
  by_cases hc : usub now s.lastTick ≥ TICK_MS
  · rw [if_pos hc, if_pos hc, tickBody_idle { s with lastTick := now } h1 h2]
  · rw [if_neg hc, if_neg hc]

theorem ledPhase_finished (now : Nat) (s : LoopState)
    (h1 : s.timer.isStopwatchRunning = false)
    (h2 : s.timer.isCountdownRunning = false)
    (h3 : s.timer.countdownFinished = true) :
    ledPhase now s =
      (if usub now s.lastLedToggle ≥ 700 then
        ({ s with lastLedToggle := now, ledState := !s.ledState,
                  ledPin := !s.ledState }, [PWrite.led (!s.ledState)])
       else (s, [])) := by
  simp only [ledPhase, h1, h2, h3]
  split_ifs <;> simp_all

/-! ### C4: press released exactly at the long-press boundary -/

/-- C4 counterexample, for both buttons: on the `c4Trace` run, button A is
stably pressed at time 200 and its stable release is processed at time
1000, a held time of exactly `LONGPRESS_MS` = 800; yet no event at all is
emitted over the whole run (the strict `held < 800` comparison rejects the
short press and the long-press block never fires).  The mirror `c4TraceB`
run does the same to button B, again emitting no event.  So the claim that
such a press emits `ShortPress` is false for either button. -/
theorem c4_counterexample :
    (c4ReleaseState.stableA = false ∧
     c4ReleaseState.pressStartA = 200 ∧
     usub 1000 c4ReleaseState.pressStartA = LONGPRESS_MS ∧
     (runTrace c4Trace initLoopState).1.stableA = true ∧
     (runTrace c4Trace initLoopState).2 = []) ∧
    (c4ReleaseStateB.stableB = false ∧
     c4ReleaseStateB.pressStartB = 200 ∧
     usub 1000 c4ReleaseStateB.pressStartB = LONGPRESS_MS ∧
     (runTrace c4TraceB initLoopState).1.stableB = true ∧
     (runTrace c4TraceB initLoopState).2 = []) := by
  refine ⟨⟨?_, ?_, ?_, ?_, ?_⟩, ⟨?_, ?_, ?_, ?_, ?_⟩⟩ <;> decide

/-- C4 (amended): for either button, a stable press whose held time at the
moment of stable release is exactly `LONGPRESS_MS` = 800 is treated as
neither kind of press: the iteration emits no event (the short-press path
uses a strict `<`, and the hold block sees the already-released stable
level), and the stable level returns to released.  The first conjunct is
the button-A instance (with B idle), the second the button-B instance
(with A idle). -/
theorem c4_boundary_release (s : LoopState) (now : Nat) :
    (s.lastRawA = true → s.stableA = false →
     usub now s.lastDebounceTimeA > DEBOUNCE_MS →
     usub now s.pressStartA = LONGPRESS_MS →
     s.lastRawB = true → s.stableB = true →
     (loopStep now true true s).2.1 = [] ∧
     (loopStep now true true s).1.stableA = true) ∧
    (s.lastRawB = true → s.stableB = false →
     usub now s.lastDebounceTimeB > DEBOUNCE_MS →
     usub now s.pressStartB = LONGPRESS_MS →
     s.lastRawA = true → s.stableA = true →
     (loopStep now true true s).2.1 = [] ∧
     (loopStep now true true s).1.stableB = true) := by
  constructor
  · intro hra hsa hdb hheld hrb hsb
    have hA : debouncePhaseA now true s =
        ({ s with stableA := true }, [], []) := by
      obtain ⟨tm, rd, lra, lrb, ldta, ldtb, sa, sb, psa, psb, la, lb, lhr,
        lt, llt, ls, lp⟩ := s
      simp only at hra hsa hdb hheld
      subst hra; subst hsa
      simp [debouncePhaseA, hdb, hheld]
    simp only [loopStep]
    rw [hA]
    dsimp only
    rw [debouncePhaseB_idle now { s with stableA := true } hrb hsb]
    dsimp only
    rw [holdPhaseA_skip now { s with stableA := true } rfl]
    dsimp only
    rw [holdPhaseB_skip now { s with stableA := true } hsb]
    dsimp only
    constructor
    · rfl
    · rw [finalRender_stableA, ledPhase_stableA, tickPhase_stableA]
  · intro hrb hsb hdb hheld hra hsa
    have hB : debouncePhaseB now true s =
        ({ s with stableB := true }, [], []) := by
      obtain ⟨tm, rd, lra, lrb, ldta, ldtb, sa, sb, psa, psb, la, lb, lhr,
        lt, llt, ls, lp⟩ := s
      simp only at hrb hsb hdb hheld
      subst hrb; subst hsb
      simp [debouncePhaseB, hdb, hheld]
    simp only [loopStep]
    rw [debouncePhaseA_idle now s hra hsa]
    dsimp only
    rw [hB]
    dsimp only
    rw [holdPhaseA_skip now { s with stableB := true } hsa]
    dsimp only
    rw [holdPhaseB_skip now { s with stableB := true } rfl]
    dsimp only
    constructor
    · rfl
    · rw [finalRender_stableB, ledPhase_stableB, tickPhase_stableB]

theorem c4_boundary_release_witness :
    ((loopStep 1000 true true c4ReleaseState).2.1 = [] ∧
     (loopStep 1000 true true c4ReleaseState).1.stableA = true) ∧
    ((loopStep 1000 true true c4ReleaseStateB).2.1 = [] ∧
     (loopStep 1000 true true c4ReleaseStateB).1.stableB = true) :=
  ⟨(c4_boundary_release c4ReleaseState 1000).1 (by decide) (by decide)
     (by decide) (by decide) (by decide) (by decide),
   (c4_boundary_release c4ReleaseStateB 1000).2 (by decide) (by decide)
     (by decide) (by decide) (by decide) (by decide)⟩

/-! ### C3: LED behaviour in the countdown-finished state -/

/-- C3 counterexample: the trace `c3Trace` runs a 10-second countdown to
expiry, reaching a state with neither timer running and the finished flag
set.  In that state the blink flip-flop does toggle on the 700-unit
cadence, but the unconditional final render of each iteration forces the
LED pin high again (line 99), so the LED pin ends every iteration high —
it is held constantly on, contradicting the claimed blinking output. -/
theorem c3_counterexample :
    c3ExpiredState.timer.isStopwatchRunning = false ∧
    c3ExpiredState.timer.isCountdownRunning = false ∧
    c3ExpiredState.timer.countdownFinished = true ∧
    c3ExpiredState.timer.currentMode = TimerMode.COUNTDOWN ∧
    (loopStep 10700 true true c3ExpiredState).1.ledPin = true ∧
    (loopStep 11400 true true
      (loopStep 10700 true true c3ExpiredState).1).1.ledState = false ∧
    (loopStep 11400 true true
      (loopStep 10700 true true c3ExpiredState).1).1.ledPin = true := by
  refine ⟨?_, ?_, ?_, ?_, ?_, ?_, ?_⟩ <;> decide

/-- C3 (amended): with neither timer running and the countdown-finished
flag set, while the buttons are idle, each loop iteration toggles the
blink flip-flop exactly when 700 time units have elapsed since the last
toggle, and the LED pin follows the flip-flop — provided the displayed
mode is not `COUNTDOWN`; in the countdown-expired display state the final
render forces the pin high every iteration instead (see the
counterexample). -/
theorem c3_blink (s : LoopState) (now : Nat)
    (hra : s.lastRawA = true) (hrb : s.lastRawB = true)
    (hsa : s.stableA = true) (hsb : s.stableB = true)
    (hsw : s.timer.isStopwatchRunning = false)
    (hcd : s.timer.isCountdownRunning = false)
    (hfin : s.timer.countdownFinished = true)
    (hmode : s.timer.currentMode ≠ TimerMode.COUNTDOWN)
    (hpin : s.ledPin = s.ledState) :
    (loopStep now true true s).1.ledState =
      (if usub now s.lastLedToggle ≥ 700 then !s.ledState
       else s.ledState) ∧
    (loopStep now true true s).1.ledPin =
      (loopStep now true true s).1.ledState ∧
    (loopStep now true true s).1.lastLedToggle =
      (if usub now s.lastLedToggle ≥ 700 then now
       else s.lastLedToggle) := by
  simp only [loopStep]
  rw [debouncePhaseA_idle now s hra hsa]
  dsimp only
  rw [debouncePhaseB_idle now s hrb hsb]
  dsimp only
  rw [holdPhaseA_skip now s hsa]
  dsimp only
  rw [holdPhaseB_skip now s hsb]
  dsimp only
  rw [tickPhase_idle now s hsw hcd]
  by_cases ht : usub now s.lastTick ≥ TICK_MS
  · rw [if_pos ht]
    rw [ledPhase_finished now { s with lastTick := now } hsw hcd hfin]
    dsimp only
    by_cases hl : usub now s.lastLedToggle ≥ 700
    · rw [if_pos hl, if_pos hl, if_pos hl]
      dsimp only [finalRender]
      refine ⟨rfl, ?_, rfl⟩
      rw [updateLCD_ledPin _ _ _ (Or.inl hmode)]
    · rw [if_neg hl, if_neg hl, if_neg hl]
      dsimp only [finalRender]
      refine ⟨rfl, ?_, rfl⟩
      rw [updateLCD_ledPin _ _ _ (Or.inl hmode)]
      exact hpin
  · rw [if_neg ht]
    rw [ledPhase_finished now s hsw hcd hfin]
    try dsimp only
    by_cases hl : usub now s.lastLedToggle ≥ 700
    · rw [if_pos hl, if_pos hl, if_pos hl]
      dsimp only [finalRender]
      refine ⟨rfl, ?_, rfl⟩
      rw [updateLCD_ledPin _ _ _ (Or.inl hmode)]
    · rw [if_neg hl, if_neg hl, if_neg hl]
      dsimp only [finalRender]
      refine ⟨rfl, ?_, rfl⟩
      rw [updateLCD_ledPin _ _ _ (Or.inl hmode)]
      exact hpin

theorem c3_blink_witness :
    (loopStep 700 true true c3BlinkState).1.ledState =
      (if usub 700 c3BlinkState.lastLedToggle ≥ 700 then !c3BlinkState.ledState
       else c3BlinkState.ledState) ∧
    (loopStep 700 true true c3BlinkState).1.ledPin =
      (loopStep 700 true true c3BlinkState).1.ledState ∧
    (loopStep 700 true true c3BlinkState).1.lastLedToggle =
      (if usub 700 c3BlinkState.lastLedToggle ≥ 700 then 700
       else c3BlinkState.lastLedToggle) :=
  c3_blink c3BlinkState 700 (by decide) (by decide) (by decide) (by decide)
    (by decide) (by decide) (by decide) (by decide) (by decide)

/-! ### C9: invariance under a uniform timestamp offset -/

theorem usub_shift (c a b : Nat) :
    usub (shiftTs c a) (shiftTs c b) = usub a b := by
  unfold usub shiftTs W32
  push_cast
  omega

theorem debouncePhaseA_shift (c now : Nat) (rawA : Bool) (s : LoopState) :
    debouncePhaseA (shiftTs c now) rawA (shiftState c s) =
      (shiftState c (debouncePhaseA now rawA s).1,
       (debouncePhaseA now rawA s).2.1,
       (debouncePhaseA now rawA s).2.2) := by
  obtain ⟨tm, rd, lra, lrb, ldta, ldtb, sa, sb, psa, psb, la, lb, lhr, lt,
    llt, ls, lp⟩ := s
  simp only [debouncePhaseA, shiftState, usub_shift]
  split_ifs <;> simp_all [usub_shift]

theorem debouncePhaseB_shift (c now : Nat) (rawB : Bool) (s : LoopState) :
    debouncePhaseB (shiftTs c now) rawB (shiftState c s) =
      (shiftState c (debouncePhaseB now rawB s).1,
       (debouncePhaseB now rawB s).2.1,
       (debouncePhaseB now rawB s).2.2) := by
  obtain ⟨tm, rd, lra, lrb, ldta, ldtb, sa, sb, psa, psb, la, lb, lhr, lt,
    llt, ls, lp⟩ := s
  simp only [debouncePhaseB, shiftState, usub_shift]
  split_ifs <;> simp_all [usub_shift]

theorem holdPhaseA_shift (c now : Nat) (s : LoopState) :
    holdPhaseA (shiftTs c now) (shiftState c s) =
      (shiftState c (holdPhaseA now s).1,
       (holdPhaseA now s).2.1, (holdPhaseA now s).2.2) := by
  obtain ⟨tm, rd, lra, lrb, ldta, ldtb, sa, sb, psa, psb, la, lb, lhr, lt,
    llt, ls, lp⟩ := s
  simp only [holdPhaseA, shiftState, usub_shift]
  split_ifs <;> simp_all [usub_shift]

theorem holdPhaseB_shift (c now : Nat) (s : LoopState) :
    holdPhaseB (shiftTs c now) (shiftState c s) =
      (shiftState c (holdPhaseB now s).1,
       (holdPhaseB now s).2.1, (holdPhaseB now s).2.2) := by
  obtain ⟨tm, rd, lra, lrb, ldta, ldtb, sa, sb, psa, psb, la, lb, lhr, lt,
    llt, ls, lp⟩ := s
  simp only [holdPhaseB, shiftState, usub_shift]
  split_ifs <;> simp_all [usub_shift]

theorem tickBody_shift (c : Nat) (s : LoopState) :
    tickBody (shiftState c s) =
      (shiftState c (tickBody s).1, (tickBody s).2) := by
  obtain ⟨tm, rd, lra, lrb, ldta, ldtb, sa, sb, psa, psb, la, lb, lhr, lt,
    llt, ls, lp⟩ := s
  simp only [tickBody, shiftState]
  split_ifs <;> rfl

theorem tickPhase_shift (c now : Nat) (s : LoopState) :
    tickPhase (shiftTs c now) (shiftState c s) =
      (shiftState c (tickPhase now s).1, (tickPhase now s).2) := by
  unfold tickPhase
  have hc : usub (shiftTs c now) (shiftState c s).lastTick =
      usub now s.lastTick := by
    have h : (shiftState c s).lastTick = shiftTs c s.lastTick := rfl
    rw [h, usub_shift]
  rw [hc]
  by_cases h : usub now s.lastTick ≥ TICK_MS
  · rw [if_pos h, if_pos h]
    have hst : ({ shiftState c s with lastTick := shiftTs c now } : LoopState) =
        shiftState c { s with lastTick := now } := by
      obtain ⟨tm, rd, lra, lrb, ldta, ldtb, sa, sb, psa, psb, la, lb, lhr,
        lt, llt, ls, lp⟩ := s
      rfl
    rw [hst, tickBody_shift]
  · rw [if_neg h, if_neg h]

theorem ledPhase_shift (c now : Nat) (s : LoopState) :
    ledPhase (shiftTs c now) (shiftState c s) =
      (shiftState c (ledPhase now s).1, (ledPhase now s).2) := by
  obtain ⟨tm, rd, lra, lrb, ldta, ldtb, sa, sb, psa, psb, la, lb, lhr, lt,
    llt, ls, lp⟩ := s
  simp only [ledPhase, shiftState, usub_shift]
  split_ifs <;> simp_all [usub_shift]

theorem finalRender_shift (c : Nat) (s : LoopState) :
    finalRender (shiftState c s) =
      (shiftState c (finalRender s).1, (finalRender s).2) := by
  obtain ⟨tm, rd, lra, lrb, ldta, ldtb, sa, sb, psa, psb, la, lb, lhr, lt,
    llt, ls, lp⟩ := s
  simp only [finalRender, shiftState]

/-- C9: every timing decision of the loop is an unsigned modular
difference between the current time and a recorded timestamp compared
against a constant, so one whole loop iteration commutes with adding a
uniform offset (mod `2^32`) to the current time and to every recorded
timestamp: the emitted events and peripheral writes are identical, and
the resulting state is the shifted resulting state of the unshifted run.
Clock wraparound therefore does not affect the loop's observable
behaviour. -/
theorem c9_loopStep_shift (c now : Nat) (rawA rawB : Bool) (s : LoopState) :
    loopStep (shiftTs c now) rawA rawB (shiftState c s) =
      (shiftState c (loopStep now rawA rawB s).1,
       (loopStep now rawA rawB s).2.1,
       (loopStep now rawA rawB s).2.2) := by
  simp only [loopStep]
  rw [debouncePhaseA_shift]
  dsimp only
  rw [debouncePhaseB_shift]
  dsimp only
  rw [holdPhaseA_shift]
  dsimp only
  rw [holdPhaseB_shift]
  dsimp only
  rw [tickPhase_shift]
  dsimp only
  rw [ledPhase_shift]
  dsimp only
  rw [finalRender_shift]

theorem c10_display_writes_witness :
    cacheFor 0 (updateLCD initTimerState emptyRender false).1
      = "A : Stopwatch" :=
  (c10_display_writes initTimerState emptyRender false).2 0 "A : Stopwatch"
    (by decide)
